import Mathlib

/-!
# Verification of the AiSignalPro dashboard client

Shallow embedding of the nontrivial logic of the AiSignalPro frontend:

* the `AnalysisConclusion` component of `src/unnamed/part_001` (lines 141-167),
  which collapses an analysis record into one qualitative conclusion;
* the per-feed fetch handlers of `SystemStatus`, `MarketOverview` and
  `PriceTicker` (`src/unnamed/part_003`, `src/unnamed/part_004`,
  `src/frontend/src/app/page.js`, `src/src/app/page.js`);
* the `ActiveTradeCard` progress computation of `src/src/app/page.js`;
* the `SignalCard` color lookup of `src/frontend/src/app/page.js`.

JavaScript conventions used by the embedding: absent or non-string object
fields are `Option.none`; a thrown `TypeError` is `Except.error`; a React
component that returns `null` (renders nothing) is `Option.none` in the
result; JS objects with dynamic keys are association lists preserving key
insertion order; JS numbers are modelled as rationals.
-/

deriving instance DecidableEq for Except

namespace AiSignalPro

/-- Does the character list start with the given pattern?  Helper for the
embedding of `String.prototype.includes`. -/
def startsWithChars : List Char → List Char → Bool
  | _, [] => true
  | [], _ :: _ => false
  | a :: as, b :: bs => a == b && startsWithChars as bs

/-- Is `pat` a contiguous substring of `s` (as character lists)? -/
def containsChars : List Char → List Char → Bool
  | [], pat => startsWithChars [] pat
  | a :: rest, pat => startsWithChars (a :: rest) pat || containsChars rest pat

/-- Embedding of JS `s.includes(pat)` for strings. -/
def strIncludes (s pat : String) : Bool :=
  containsChars s.toList pat.toList

/-- Embedding of JS `s.toLowerCase().includes(pat)` (ASCII lowering, which
is all the matched keywords need). -/
def strIncludesLower (s pat : String) : Bool :=
  containsChars (s.toList.map Char.toLower) pat.toList

/-! ## Data model of the analysis record

From the JSON shapes consumed by `AnalysisConclusion` and
`DetailedAnalysisEngine`: `{trend: {signal}, divergence: {indicator ->
[{type}]}, market_structure: {market_phase, predicted_next_leg_direction},
patterns: [..]}`, every field possibly absent. -/

/-- One divergence entry `{type: ...}`.  `type` is `none` when the field is
absent or not a string (in which case JS `d.type.includes(..)` throws). -/
structure DivEntry where
  type : Option String
deriving Repr, DecidableEq

/-- The `divergence` object: indicator name to entry list, in key insertion
order. -/
abbrev DivMap := List (String × List DivEntry)

/-- The `trend` sub-object. -/
structure Trend where
  signal : Option String
deriving Repr, DecidableEq

/-- The `market_structure` sub-object (the fields the UI reads). -/
structure MarketStructure where
  market_phase : Option String
  predicted_next_leg_direction : Option String
deriving Repr, DecidableEq

/-- An analysis record for one symbol and timeframe.  Any field may be
absent. -/
structure AnalysisRecord where
  divergence : Option DivMap
  trend : Option Trend
  market_structure : Option MarketStructure
  patterns : Option (List String)
deriving Repr, DecidableEq

/-- The entirely empty record `{}`. -/
def emptyRecord : AnalysisRecord :=
  { divergence := none, trend := none, market_structure := none, patterns := none }

/-- Embedding of `analysis.divergence?.key || []`: the entry list under a
given indicator key, or `[]` when the object or the key is absent. -/
def divGet (m : Option DivMap) (k : String) : List DivEntry :=
  match m with
  | none => []
  | some l =>
    match l.lookup k with
    | some v => v
    | none => []

/-- The conclusion value built by `AnalysisConclusion`: display text, text
color class, and icon component name. -/
structure Conclusion where
  text : String
  color : String
  icon : String
deriving Repr, DecidableEq

/-- The initial / fall-through conclusion `{text: 'N/A', ...}`. -/
def naConclusion : Conclusion :=
  { text := "N/A", color := "text-gray-400", icon := "TbMinus" }

/-- `{text: 'Bullish Divergence', ...}`. -/
def bullishDivergence : Conclusion :=
  { text := "Bullish Divergence", color := "text-green-400", icon := "TbArrowUpRight" }

/-- `{text: 'Bearish Divergence', ...}`. -/
def bearishDivergence : Conclusion :=
  { text := "Bearish Divergence", color := "text-red-400", icon := "TbArrowDownLeft" }

/-- `{text: 'Bullish Trend', ...}`. -/
def bullishTrend : Conclusion :=
  { text := "Bullish Trend", color := "text-green-400", icon := "TbArrowUpRight" }

/-- `{text: 'Bearish Trend', ...}`. -/
def bearishTrend : Conclusion :=
  { text := "Bearish Trend", color := "text-red-400", icon := "TbArrowDownLeft" }

/-- `{text: 'Neutral Trend', ...}`. -/
def neutralTrend : Conclusion :=
  { text := "Neutral Trend", color := "text-yellow-400", icon := "TbMinus" }

/-- Embedding of `list.some(d => d.type.includes(pat))`: scans in order,
short-circuits on the first match, and throws a `TypeError` when an entry it
reaches has no (string) `type` field. -/
def someTypeIncludes : List DivEntry → String → Except String Bool
  | [], _ => .ok false
  | e :: rest, pat =>
    match e.type with
    | none => .error "TypeError"
    | some t =>
      if strIncludes t pat then .ok true else someTypeIncludes rest pat

/-- JS short-circuit `a || b` over throwing boolean computations: if `a`
throws, the whole expression throws; if `a` is `true`, `b` is never
evaluated (so an error in `b` does not surface). -/
def exOr (a b : Except String Bool) : Except String Bool :=
  match a with
  | .error e => .error e
  | .ok true => .ok true
  | .ok false => b

/-- Embedding of the body of `AnalysisConclusion` (`src/unnamed/part_001`
lines 145-156) after the `!analysis` guard: reads only the `rsi` and `macd`
divergence lists, checks `bullish` before `bearish` (rsi list before macd
list, short-circuiting), then falls back to the truthy `trend.signal`
(lower-cased substring tests), and otherwise keeps the initial `N/A`
conclusion.  `Except.error` models a thrown `TypeError`. -/
def deriveConclusion (a : AnalysisRecord) : Except String Conclusion :=
  match exOr (someTypeIncludes (divGet a.divergence "rsi") "bullish")
      (someTypeIncludes (divGet a.divergence "macd") "bullish") with
  | .error e => .error e
  | .ok true => .ok bullishDivergence
  | .ok false =>
    match exOr (someTypeIncludes (divGet a.divergence "rsi") "bearish")
        (someTypeIncludes (divGet a.divergence "macd") "bearish") with
    | .error e => .error e
    | .ok true => .ok bearishDivergence
    | .ok false =>
      match a.trend with
      | none => .ok naConclusion
      | some tr =>
        match tr.signal with
        | none => .ok naConclusion
        | some sg =>
          if sg = "" then .ok naConclusion
          else
            if strIncludesLower sg "uptrend" then .ok bullishTrend
            else if strIncludesLower sg "downtrend" then .ok bearishTrend
            else .ok neutralTrend

/-- The whole component including the `if (!analysis) return null` guard: a
`null`/`undefined` record renders nothing (`Option.none`), otherwise the
derived conclusion is rendered. -/
def analysisConclusionRender (a : Option AnalysisRecord) :
    Except String (Option Conclusion) :=
  match a with
  | none => .ok none
  | some r => (deriveConclusion r).map some

/-! ## Spec-side vocabulary

The specification describes the result abstractly as a pair
`{label, sourceCategory}`.  The following definitions follow the spec's
words (not the source) and are used only to compare the source's concrete
conclusion values against the spec's vocabulary. -/

/-- Spec-side qualitative label. -/
inductive Label
  | Bullish
  | Bearish
  | Neutral
deriving Repr, DecidableEq

/-- Spec-side source category of a conclusion. -/
inductive SourceCategory
  | Divergence
  | Trend
  | MarketStructure
  | None
deriving Repr, DecidableEq

/-- Modelled from the spec: the abstraction of a concrete conclusion value
into the spec's `{label, sourceCategory}` pair, keyed on the six display
texts the component can produce (`N/A` is the spec's `{Neutral, None}`). -/
def specView (c : Conclusion) : Label × SourceCategory :=
  if c.text = "Bullish Divergence" then (Label.Bullish, SourceCategory.Divergence)
  else if c.text = "Bearish Divergence" then (Label.Bearish, SourceCategory.Divergence)
  else if c.text = "Bullish Trend" then (Label.Bullish, SourceCategory.Trend)
  else if c.text = "Bearish Trend" then (Label.Bearish, SourceCategory.Trend)
  else if c.text = "Neutral Trend" then (Label.Neutral, SourceCategory.Trend)
  else (Label.Neutral, SourceCategory.None)

/-- The total (never-throwing) restriction of `deriveConclusion`: the value
the component computes whenever every `rsi`/`macd` divergence entry carries
a string `type` field (the situation in which the JS code cannot throw). -/
def deriveTotal (a : AnalysisRecord) : Conclusion :=
  if ((divGet a.divergence "rsi").any fun e => strIncludes (e.type.getD "") "bullish")
      || ((divGet a.divergence "macd").any fun e => strIncludes (e.type.getD "") "bullish") then
    bullishDivergence
  else if ((divGet a.divergence "rsi").any fun e => strIncludes (e.type.getD "") "bearish")
      || ((divGet a.divergence "macd").any fun e => strIncludes (e.type.getD "") "bearish") then
    bearishDivergence
  else
    match a.trend with
    | none => naConclusion
    | some tr =>
      match tr.signal with
      | none => naConclusion
      | some sg =>
        if sg = "" then naConclusion
        else if strIncludesLower sg "uptrend" then bullishTrend
        else if strIncludesLower sg "downtrend" then bearishTrend
        else neutralTrend

/-! ## Concrete records used by counterexamples and witnesses -/

/-- A record whose only divergence entry sits under the `stoch` key. -/
def stochRecord : AnalysisRecord :=
  { divergence := some [("stoch", [{ type := some "bullish regular" }])],
    trend := none, market_structure := none, patterns := none }

/-- A record with a bullish rsi divergence, a downtrend signal and a
downward market structure all at once. -/
def rsiBullRecord : AnalysisRecord :=
  { divergence := some [("rsi", [{ type := some "regular bullish" }]), ("macd", [])],
    trend := some { signal := some "Downtrend" },
    market_structure := some ⟨some "markdown", some "down"⟩,
    patterns := some [] }

/-- A record with a divergence entry that has no `type` field. -/
def noTypeRecord : AnalysisRecord :=
  { divergence := some [("rsi", [{ type := none }])],
    trend := none, market_structure := none, patterns := none }

/-- A well-typed record with a hidden bearish macd divergence. -/
def macdBearRecord : AnalysisRecord :=
  { divergence := some [("rsi", []), ("macd", [{ type := some "hidden bearish" }])],
    trend := some { signal := some "Sideways" }, market_structure := none,
    patterns := none }

/-- Empty divergence object, no trend, market structure predicting an
upward next leg. -/
def msUpRecord : AnalysisRecord :=
  { divergence := some [], trend := none,
    market_structure := some ⟨some "accumulation", some "up"⟩,
    patterns := none }

/-- Empty divergence object and a plain `downtrend` signal. -/
def downtrendRecord : AnalysisRecord :=
  { divergence := some [], trend := some { signal := some "downtrend" },
    market_structure := none, patterns := none }

/-! ## Feed fetch handlers

Each feed's scheduled `fetch` is embedded as a transition on the
component's hook state.  The fetch outcome is `some data` when the response
was OK and its body parsed, and `none` for a network error, a non-OK HTTP
status or a JSON parse failure — the JS code routes all three into the same
`catch` block. -/

/-- One `/api/status/` entry. -/
structure ServiceStatus where
  name : String
  status : String
  ping : String
deriving Repr, DecidableEq

/-- Hook state of the `SystemStatus` component of `src/unnamed/part_004`
(the same component appears in `src/src/app/page.js`). -/
structure SystemStatusState where
  statuses : List ServiceStatus
  isLoading : Bool
deriving Repr, DecidableEq

/-- One `fetchStatuses` tick (`src/unnamed/part_004` lines 12-24): on
success store the fetched list; on any failure `setStatuses([])`; either
way clear the loading flag. -/
def systemStatusTick (result : Option (List ServiceStatus))
    (_s : SystemStatusState) : SystemStatusState :=
  match result with
  | some data => { statuses := data, isLoading := false }
  | none => { statuses := [], isLoading := false }

/-- The `/api/market-overview/` payload fields the UI reads. -/
structure MarketOverviewData where
  market_cap : Option ℚ
  volume_24h : Option ℚ
  btc_dominance : Option ℚ
  fear_and_greed : Option String
deriving Repr, DecidableEq

/-- Hook state of the `MarketOverview` component of `src/unnamed/part_004`. -/
structure MarketOverviewState where
  marketData : Option MarketOverviewData
  isLoading : Bool
deriving Repr, DecidableEq

/-- One `fetchMarketData` tick (`src/unnamed/part_004` lines 68-78): on
success store the data; on failure only log — `marketData` is untouched. -/
def marketOverviewTick (result : Option MarketOverviewData)
    (s : MarketOverviewState) : MarketOverviewState :=
  match result with
  | some data => { marketData := some data, isLoading := false }
  | none => { s with isLoading := false }

/-- One per-symbol entry of the `/api/data/all/` payload as rendered by the
`PriceTicker` of `src/unnamed/part_003`. -/
structure PriceEntry where
  symbol : Option String
  price : Option ℚ
  change_24h : Option ℚ
  source : Option String
deriving Repr, DecidableEq

/-- The `livePrices` hook: a JS object keyed by coin. -/
abbrev LivePrices := List (String × PriceEntry)

/-- One `fetchPrices` tick of the `PriceTicker` of `src/unnamed/part_003`
lines 89-95: a successful fetch of an object replaces `livePrices`
wholesale (nothing else stores prices anywhere); a failure leaves the state
untouched. -/
def priceTickerTick (result : Option LivePrices) (s : LivePrices) : LivePrices :=
  match result with
  | some data => data
  | none => s

/-- Hook state of the `SystemStatus` component of
`src/frontend/src/app/page.js` (lines 27-39): its only hook is `statuses`. -/
structure FrontSystemStatusState where
  statuses : List ServiceStatus
deriving Repr, DecidableEq

/-- One `fetchStatuses` tick of `src/frontend/src/app/page.js` lines 29-34:
on success replace `statuses`; on any failure only log — the state is left
completely unchanged. -/
def frontSystemStatusTick (result : Option (List ServiceStatus))
    (s : FrontSystemStatusState) : FrontSystemStatusState :=
  match result with
  | some data => { statuses := data }
  | none => s

/-! ## Price rendering -/

/-- JS `x.toFixed(2)` on rationals: the magnitude in cents, rounded half
away from zero, printed with exactly two zero-padded fraction digits and a
sign for negative results. -/
def toFixed2 (q : ℚ) : String :=
  let cents : Nat := (q.num.natAbs * 100 * 2 + q.den) / (2 * q.den)
  let sign := if q < 0 ∧ cents ≠ 0 then "-" else ""
  let fracStr :=
    if cents % 100 < 10 then "0" ++ toString (cents % 100)
    else toString (cents % 100)
  sign ++ toString (cents / 100) ++ "." ++ fracStr

/-- The change line rendered for one coin by `src/unnamed/part_003` lines
106-119: `none` when the coin is absent from `livePrices` (a skeleton
placeholder is shown); otherwise `change = p.change_24h || 0` is formatted
as `(change >= 0 ? '+' : '') + change.toFixed(2) + '%'`. -/
def renderedChange (st : LivePrices) (coin : String) : Option String :=
  match st.lookup coin with
  | none => none
  | some p =>
    let change := p.change_24h.getD 0
    some ((if 0 ≤ change then "+" else "") ++ toFixed2 change ++ "%")

/-! ## Trade progress and signal colors -/

/-- An open-trade record as consumed by `ActiveTradeCard`
(`src/src/app/page.js`), JS numbers as rationals. -/
structure TradeRec where
  direction : String
  symbol : String
  entry_price : ℚ
  current_price : ℚ
  sl : ℚ
  targets : List ℚ
deriving Repr, DecidableEq

/-- Lines 34-37 of `src/src/app/page.js`: the progress value behind the
progress-bar width.  `targets.headI` is JS `trade.targets[0]` (meaningful
when `targets` is non-empty). -/
def tradeProgress (t : TradeRec) : ℚ :=
  if |t.targets.headI - t.entry_price| ≠ 0 then
    min (|t.current_price - t.entry_price| / |t.targets.headI - t.entry_price| * 100) 100
  else 0

/-- One color set of the `SignalCard` of `src/frontend/src/app/page.js`. -/
structure ColorSet where
  border : String
  text : String
  bg : String
deriving Repr, DecidableEq

/-- The `colors.HOLD` set. -/
def holdColorSet : ColorSet :=
  ⟨"border-yellow-500/50", "text-yellow-400", "bg-yellow-500/10"⟩

/-- The `colors` object literal of `SignalCard`
(`src/frontend/src/app/page.js` lines 81-85). -/
def signalColors : List (String × ColorSet) :=
  [("BUY", ⟨"border-green-500/50", "text-green-400", "bg-green-500/10"⟩),
    ("SELL", ⟨"border-red-500/50", "text-red-400", "bg-red-500/10"⟩),
    ("HOLD", holdColorSet)]

/-- The member names an object literal inherits from `Object.prototype`, so
that `colors[name]` yields a truthy function (or, for `__proto__`, the
prototype object) instead of `undefined`. -/
def objectProtoKeys : List String :=
  ["constructor", "hasOwnProperty", "isPrototypeOf", "propertyIsEnumerable",
    "toLocaleString", "toString", "valueOf", "__proto__",
    "__defineGetter__", "__defineSetter__", "__lookupGetter__", "__lookupSetter__"]

/-- The JS value of a property read on the `colors` object literal: one of
its own color sets, a truthy member inherited from `Object.prototype`, or
`undefined`. -/
inductive ColorLookupResult
  | colorSet (c : ColorSet)
  | protoMember (name : String)
  | jsUndefined
deriving Repr, DecidableEq

/-- `colors[signal.signal_type]`, prototype chain included: an own key
(`BUY`/`SELL`/`HOLD`) yields its color set; an `Object.prototype` member
name yields that inherited truthy value; any other key — and the key
`"undefined"` that an absent `signal_type` turns into — is `undefined`. -/
def colorsIndex (signal_type : Option String) : ColorLookupResult :=
  match signal_type with
  | none => .jsUndefined
  | some t =>
    match signalColors.lookup t with
    | some c => .colorSet c
    | none => if t ∈ objectProtoKeys then .protoMember t else .jsUndefined

/-- Line 86: `const color = colors[signal.signal_type] || colors.HOLD`.
Only `undefined` is falsy here; a color set or an inherited prototype
member is truthy and is kept as-is. -/
def signalCardColor (signal_type : Option String) : ColorLookupResult :=
  match colorsIndex signal_type with
  | .jsUndefined => .colorSet holdColorSet
  | v => v

/-- `color.border` as the card's JSX reads it (`none` is JS `undefined`:
inherited prototype members have no such property). -/
def cardBorder : ColorLookupResult → Option String
  | .colorSet c => some c.border
  | _ => none

/-- `color.text` as the card's JSX reads it. -/
def cardText : ColorLookupResult → Option String
  | .colorSet c => some c.text
  | _ => none

/-- `color.bg` as the card's JSX reads it. -/
def cardBg : ColorLookupResult → Option String
  | .colorSet c => some c.bg
  | _ => none

/-- First BTC payload: price 100, upstream 24h change 5. -/
def btcTick1 : LivePrices :=
  [("BTC", ⟨some "BTC/USDT", some 100, some 5, some "kucoin"⟩)]

/-- Second BTC payload: price 110, upstream 24h change still 5. -/
def btcTick2 : LivePrices :=
  [("BTC", ⟨some "BTC/USDT", some 110, some 5, some "kucoin"⟩)]

/-- A BTC payload without the `change_24h` field. -/
def btcNoChange : LivePrices :=
  [("BTC", ⟨some "BTC/USDT", some 100, none, some "gate"⟩)]

/-- A successful `/api/status/` payload. -/
def okStatuses : List ServiceStatus := [⟨"Kucoin", "online", "120ms"⟩]

/-- A frontend system-status state holding last-known-good data. -/
def frontOkState : FrontSystemStatusState := { statuses := okStatuses }

/-- The first sample trade of `ActiveTrades` in `src/src/app/page.js`. -/
def sampleLongTrade : TradeRec :=
  { direction := "long", symbol := "BTC/USDT", entry_price := 68100,
    current_price := 68500, sl := 67500, targets := [69000, 70000] }

/-! ## Helper lemmas -/

lemma someTypeIncludes_typed (l : List DivEntry) (pat : String)
    (h : ∀ e ∈ l, e.type.isSome) :
    someTypeIncludes l pat = .ok (l.any fun e => strIncludes (e.type.getD "") pat) := by
  induction l with
  | nil => rfl
  | cons e rest ih =>
    obtain ⟨t, ht⟩ := Option.isSome_iff_exists.mp (h e (List.mem_cons_self e rest))
    have hrest : ∀ x ∈ rest, x.type.isSome := fun x hx => h x (List.mem_cons_of_mem e hx)
    simp only [someTypeIncludes, ht, List.any_cons, Option.getD_some]
    by_cases hc : strIncludes t pat
    · simp [hc]
    · simp [hc, ih hrest]

lemma exOr_ok (b1 b2 : Bool) : exOr (.ok b1) (.ok b2) = .ok (b1 || b2) := by
  cases b1 <;> rfl

/-- On records whose `rsi` and `macd` divergence entries all carry `type`
strings, the component never throws and computes `deriveTotal`. -/
lemma deriveConclusion_typed (a : AnalysisRecord)
    (h1 : ∀ e ∈ divGet a.divergence "rsi", e.type.isSome)
    (h2 : ∀ e ∈ divGet a.divergence "macd", e.type.isSome) :
    deriveConclusion a = .ok (deriveTotal a) := by
  unfold deriveConclusion deriveTotal
  rw [someTypeIncludes_typed _ _ h1, someTypeIncludes_typed _ _ h2,
    someTypeIncludes_typed _ _ h1, someTypeIncludes_typed _ _ h2, exOr_ok, exOr_ok]
  cases hbull : ((divGet a.divergence "rsi").any fun e => strIncludes (e.type.getD "") "bullish")
      || ((divGet a.divergence "macd").any fun e => strIncludes (e.type.getD "") "bullish")
  · cases hbear : ((divGet a.divergence "rsi").any fun e => strIncludes (e.type.getD "") "bearish")
        || ((divGet a.divergence "macd").any fun e => strIncludes (e.type.getD "") "bearish")
    · simp only [Bool.false_eq_true, if_false]
      cases htr : a.trend with
      | none => rfl
      | some tr =>
        obtain ⟨sig⟩ := tr
        cases sig with
        | none => rfl
        | some sg =>
          by_cases h0 : sg = ""
          · simp [h0]
          · by_cases hup : strIncludesLower sg "uptrend" <;>
              by_cases hdn : strIncludesLower sg "downtrend" <;> simp [h0, hup, hdn]
    · simp
  · simp only [if_true]

/-- `deriveTotal` always produces one of the six conclusion values built by
the component. -/
lemma deriveTotal_mem (a : AnalysisRecord) :
    deriveTotal a ∈ [naConclusion, bullishDivergence, bearishDivergence,
      bullishTrend, bearishTrend, neutralTrend] := by
  unfold deriveTotal
  repeat' split
  all_goals simp

/-! ## Claim theorems for the conclusion engine -/

/-- C1 (counterexample): a record whose divergence object holds a
`bullish`-typed entry under the `stoch` key — an indicator key other than
`rsi`/`macd` — does not yield the Bullish/Divergence conclusion: the
component only reads `divergence.rsi` and `divergence.macd`, so the record
falls through to the `N/A` conclusion. -/
theorem c1_bullish_any_key_counterexample :
    (∃ p ∈ (stochRecord.divergence).getD [], ∃ e ∈ p.2,
      strIncludes (e.type.getD "") "bullish" = true) ∧
    deriveConclusion stochRecord = .ok naConclusion ∧
    specView naConclusion ≠ (Label.Bullish, SourceCategory.Divergence) := by
  decide

/-- C1 (amended): for every record whose `rsi` or `macd` divergence list
holds an entry whose `type` contains `"bullish"` — with every `rsi`/`macd`
entry carrying a string `type` field — the derivation returns the Bullish
Divergence conclusion, regardless of the trend, market-structure and
pattern contents and of the entries under all other indicator keys. -/
theorem c1_rsi_macd_bullish_divergence (a : AnalysisRecord)
    (h1 : ∀ e ∈ divGet a.divergence "rsi", e.type.isSome)
    (h2 : ∀ e ∈ divGet a.divergence "macd", e.type.isSome)
    (hb : (((divGet a.divergence "rsi").any fun e => strIncludes (e.type.getD "") "bullish")
      || ((divGet a.divergence "macd").any fun e => strIncludes (e.type.getD "") "bullish"))
      = true) :
    deriveConclusion a = .ok bullishDivergence ∧
    specView bullishDivergence = (Label.Bullish, SourceCategory.Divergence) := by
  refine ⟨?_, by decide⟩
  rw [deriveConclusion_typed a h1 h2]
  unfold deriveTotal
  rw [hb]
  simp

/-- C1 witness: the amended theorem applied to a record holding a bullish
rsi divergence next to a bearish trend and a downward market structure. -/
theorem c1_rsi_macd_bullish_divergence_witness :
    deriveConclusion rsiBullRecord = .ok bullishDivergence ∧
    specView bullishDivergence = (Label.Bullish, SourceCategory.Divergence) :=
  c1_rsi_macd_bullish_divergence rsiBullRecord (by decide) (by decide) (by decide)

/-- C3 (counterexample): the derivation is not total.  A divergence entry
without a `type` field makes it throw a TypeError (`d.type.includes` on
`undefined`), and a null record makes the component return `null` rather
than any Conclusion. -/
theorem c3_totality_counterexample :
    deriveConclusion noTypeRecord = .error "TypeError" ∧
    analysisConclusionRender none = .ok none := by
  decide

/-- C3 (amended): on every non-null record whose `rsi` and `macd`
divergence entries all carry string `type` fields, the derivation never
throws and returns one of the six conclusion values the component builds
(each carrying a label among Bullish, Bearish, Neutral). -/
theorem c3_total_on_well_typed_records (a : AnalysisRecord)
    (h1 : ∀ e ∈ divGet a.divergence "rsi", e.type.isSome)
    (h2 : ∀ e ∈ divGet a.divergence "macd", e.type.isSome) :
    deriveConclusion a = .ok (deriveTotal a) ∧
    deriveTotal a ∈ [naConclusion, bullishDivergence, bearishDivergence,
      bullishTrend, bearishTrend, neutralTrend] :=
  ⟨deriveConclusion_typed a h1 h2, deriveTotal_mem a⟩

/-- C3 witness: totality at a concrete well-typed record. -/
theorem c3_total_on_well_typed_records_witness :
    deriveConclusion macdBearRecord = .ok (deriveTotal macdBearRecord) ∧
    deriveTotal macdBearRecord ∈ [naConclusion, bullishDivergence,
      bearishDivergence, bullishTrend, bearishTrend, neutralTrend] :=
  c3_total_on_well_typed_records macdBearRecord (by decide) (by decide)

/-- C4 (counterexample): with all divergence lists empty and no trend
signal, a market structure predicting an `"up"` next leg does not produce
the Bullish/MarketStructure conclusion — the component never reads
`market_structure`, so the record yields the `N/A` conclusion. -/
theorem c4_market_structure_counterexample :
    (∀ k, divGet msUpRecord.divergence k = []) ∧
    msUpRecord.trend = none ∧
    (msUpRecord.market_structure.map MarketStructure.predicted_next_leg_direction)
      = some (some "up") ∧
    deriveConclusion msUpRecord = .ok naConclusion ∧
    specView naConclusion ≠ (Label.Bullish, SourceCategory.MarketStructure) :=
  ⟨fun _ => rfl, rfl, rfl, by decide, by decide⟩

/-- C4 (amended): the derivation ignores `market_structure` entirely.  For
every record whose divergence lists are all empty and whose trend signal is
absent or empty, it returns the `N/A` conclusion — the spec's
Neutral/None — whatever `predicted_next_leg_direction` holds. -/
theorem c4_market_structure_ignored (a : AnalysisRecord)
    (hdiv : ∀ k, divGet a.divergence k = [])
    (htr : a.trend = none ∨ ∃ tr, a.trend = some tr ∧
      (tr.signal = none ∨ tr.signal = some "")) :
    deriveConclusion a = .ok naConclusion ∧
    specView naConclusion = (Label.Neutral, SourceCategory.None) := by
  refine ⟨?_, by decide⟩
  unfold deriveConclusion
  rw [hdiv "rsi", hdiv "macd"]
  rcases htr with h | ⟨tr, h, hsig | hsig⟩
  · rw [h]; simp [someTypeIncludes, exOr]
  · rw [h]; simp [someTypeIncludes, exOr, hsig]
  · rw [h]; simp [someTypeIncludes, exOr, hsig]

/-- C4 witness: the amended theorem at the concrete upward-market-structure
record. -/
theorem c4_market_structure_ignored_witness :
    deriveConclusion msUpRecord = .ok naConclusion ∧
    specView naConclusion = (Label.Neutral, SourceCategory.None) :=
  c4_market_structure_ignored msUpRecord (fun _ => rfl) (Or.inl rfl)

/-- C7: the entirely empty record `{}` renders the `N/A` conclusion, whose
spec-side reading is label Neutral with source category None. -/
theorem c7_empty_record_neutral_none :
    analysisConclusionRender (some emptyRecord) = .ok (some naConclusion) ∧
    specView naConclusion = (Label.Neutral, SourceCategory.None) := by
  decide

/-- C8: with no divergence entries anywhere, the trend tier decides by
case-insensitive substring match on the non-empty `trend.signal`, first
match winning: `uptrend` gives Bullish/Trend, else `downtrend` gives
Bearish/Trend, else Neutral/Trend. -/
theorem c8_trend_tier_decides (a : AnalysisRecord) (sg : String)
    (hdiv : ∀ k, divGet a.divergence k = [])
    (hsig : a.trend = some { signal := some sg })
    (hne : sg ≠ "") :
    (strIncludesLower sg "uptrend" = true →
      deriveConclusion a = .ok bullishTrend ∧
      specView bullishTrend = (Label.Bullish, SourceCategory.Trend)) ∧
    (strIncludesLower sg "uptrend" = false → strIncludesLower sg "downtrend" = true →
      deriveConclusion a = .ok bearishTrend ∧
      specView bearishTrend = (Label.Bearish, SourceCategory.Trend)) ∧
    (strIncludesLower sg "uptrend" = false → strIncludesLower sg "downtrend" = false →
      deriveConclusion a = .ok neutralTrend ∧
      specView neutralTrend = (Label.Neutral, SourceCategory.Trend)) := by
  have hd : deriveConclusion a = .ok (deriveTotal a) := by
    refine deriveConclusion_typed a ?_ ?_ <;> rw [hdiv] <;> intro e he <;> cases he
  unfold deriveTotal at hd
  rw [hdiv "rsi", hdiv "macd", hsig] at hd
  simp only [List.any_nil, Bool.or_self, Bool.false_eq_true, if_false, if_neg hne] at hd
  refine ⟨fun hup => ⟨?_, by decide⟩, fun hup hdn => ⟨?_, by decide⟩,
    fun hup hdn => ⟨?_, by decide⟩⟩
  · rw [hd, if_pos hup]
  · rw [hd, if_neg (by simp [hup]), if_pos hdn]
  · rw [hd, if_neg (by simp [hup]), if_neg (by simp [hdn])]

/-- C8 witness: the spec's own example, `divergence: {}` with
`trend.signal = "downtrend"`, gives the Bearish Trend conclusion. -/
theorem c8_trend_tier_decides_witness :
    deriveConclusion downtrendRecord = .ok bearishTrend ∧
    specView bearishTrend = (Label.Bearish, SourceCategory.Trend) :=
  (c8_trend_tier_decides downtrendRecord "downtrend" (fun _ => rfl) rfl
    (by decide)).2.1 (by decide) (by decide)

/-! ## Claim theorems for feeds, prices, trades and colors -/

/-- C2 (counterexample): BTC observed at 100 and then at 110.  The first
update displays `+5.00%` (the payload's own `change_24h`), not the claimed
`0.00%`; the second still displays `+5.00%`, not the `10.00%` the
period-over-period formula demands; and the state after the second fetch is
the second payload alone — no previous price is stored anywhere. -/
theorem c2_price_memory_counterexample :
    renderedChange (priceTickerTick (some btcTick1) []) "BTC" = some "+5.00%" ∧
    renderedChange (priceTickerTick (some btcTick2)
      (priceTickerTick (some btcTick1) [])) "BTC" = some "+5.00%" ∧
    priceTickerTick (some btcTick2) (priceTickerTick (some btcTick1) []) = btcTick2 ∧
    ((110 - 100 : ℚ) / 100 * 100 = 10 ∧ toFixed2 10 = "10.00") ∧
    ("+5.00%" : String) ≠ "+10.00%" ∧ ("+5.00%" : String) ≠ "+0.00%" := by
  refine ⟨by decide, by decide, rfl, ⟨by norm_num, by decide⟩, by decide, by decide⟩

/-- C2 (amended): the displayed change is not derived from successive
prices.  It is a function of the latest successful payload alone —
`change_24h`, defaulting to `+0.00%` when the field is absent — and the
previous feed state has no influence on it. -/
theorem c2_change_from_payload_only (old1 old2 : LivePrices) (data : LivePrices)
    (coin : String) (p : PriceEntry) (hlook : data.lookup coin = some p)
    (hnone : p.change_24h = none) :
    renderedChange (priceTickerTick (some data) old1) coin =
      renderedChange (priceTickerTick (some data) old2) coin ∧
    renderedChange (priceTickerTick (some data) old1) coin = some "+0.00%" := by
  refine ⟨rfl, ?_⟩
  show renderedChange data coin = some "+0.00%"
  have hred : renderedChange data coin =
      some ((if 0 ≤ p.change_24h.getD 0 then "+" else "")
        ++ toFixed2 (p.change_24h.getD 0) ++ "%") := by
    unfold renderedChange
    rw [hlook]
  rw [hred, hnone]
  decide

/-- C2 witness: the amended theorem at a payload missing `change_24h`,
against two different previous states. -/
theorem c2_change_from_payload_only_witness :
    renderedChange (priceTickerTick (some btcNoChange) btcTick1) "BTC" =
      renderedChange (priceTickerTick (some btcNoChange) []) "BTC" ∧
    renderedChange (priceTickerTick (some btcNoChange) btcTick1) "BTC" = some "+0.00%" :=
  c2_change_from_payload_only btcTick1 [] btcNoChange "BTC"
    ⟨some "BTC/USDT", some 100, none, some "gate"⟩ rfl rfl

/-- C5 (counterexample): after a successful system-status fetch, one
failing tick replaces the previously successful data with the empty list —
the error path of this feed does clear last-known-good data. -/
theorem c5_error_clears_status_counterexample :
    (systemStatusTick (some okStatuses) ⟨[], true⟩).statuses = okStatuses ∧
    (systemStatusTick none (systemStatusTick (some okStatuses) ⟨[], true⟩)).statuses = [] ∧
    okStatuses ≠ [] := by
  refine ⟨rfl, rfl, by decide⟩

/-- C5 (amended): on a failed fetch the MarketOverview and PriceTicker
feeds leave their last successful data untouched, but the SystemStatus feed
of `src/unnamed/part_004` / `src/src/app/page.js` replaces it with the
empty list. -/
theorem c5_error_path_per_feed (mo : MarketOverviewState) (lp : LivePrices)
    (ss : SystemStatusState) :
    (marketOverviewTick none mo).marketData = mo.marketData ∧
    priceTickerTick none lp = lp ∧
    (systemStatusTick none ss).statuses = [] :=
  ⟨rfl, rfl, rfl⟩

/-- C6 (counterexample): three consecutive failing ticks leave the cited
feed's state exactly as it was — the hook state translated from the
component has no staleness constituent and nothing changes at all, so no
transition to any Stale state happens at the claimed miss threshold. -/
theorem c6_stale_transition_counterexample :
    (frontSystemStatusTick none)^[3] frontOkState = frontOkState ∧
    frontOkState.statuses ≠ [] := by
  refine ⟨rfl, by decide⟩

/-- C6 (amended): there is no Stale state.  Any number of consecutive
failing ticks leaves the feed state unchanged — the last successful data is
retained, but nothing ever marks the feed stale. -/
theorem c6_no_stale_state (n : Nat) (s : FrontSystemStatusState) :
    (frontSystemStatusTick none)^[n] s = s := by
  induction n with
  | zero => rfl
  | succ n ih => rw [Function.iterate_succ_apply]; exact ih

/-- C9: for every trade with a non-empty target list the progress value
lies in [0, 100]; when the first target equals the entry price the guarded
branch yields exactly 0. -/
theorem c9_trade_progress_bounds (t : TradeRec) (h : t.targets ≠ []) :
    0 ≤ tradeProgress t ∧ tradeProgress t ≤ 100 ∧
    (t.targets.headI = t.entry_price → tradeProgress t = 0) := by
  unfold tradeProgress
  by_cases hd : |t.targets.headI - t.entry_price| ≠ 0
  · rw [if_pos hd]
    refine ⟨le_min (by positivity) (by norm_num), min_le_right _ _, fun heq => ?_⟩
    exact absurd (by rw [heq, sub_self, abs_zero]) hd
  · rw [if_neg hd]
    exact ⟨le_refl 0, by norm_num, fun _ => rfl⟩

/-- C9 witness: the bounds at the first sample trade of `ActiveTrades`. -/
theorem c9_trade_progress_bounds_witness :
    0 ≤ tradeProgress sampleLongTrade ∧ tradeProgress sampleLongTrade ≤ 100 ∧
    (sampleLongTrade.targets.headI = sampleLongTrade.entry_price →
      tradeProgress sampleLongTrade = 0) :=
  c9_trade_progress_bounds sampleLongTrade (by decide)

/-- C10 (counterexample): `signal_type = "toString"` is none of BUY, SELL,
HOLD, yet the lookup does not fall back to the HOLD set: `colors.toString`
is the truthy inherited `Object.prototype` member, `||` keeps it, and the
card's `color.border`/`color.text`/`color.bg` all come out `undefined`. -/
theorem c10_proto_chain_counterexample :
    (("toString" : String) ≠ "BUY" ∧ ("toString" : String) ≠ "SELL" ∧
      ("toString" : String) ≠ "HOLD") ∧
    signalCardColor (some "toString") = .protoMember "toString" ∧
    signalCardColor (some "toString") ≠ .colorSet holdColorSet ∧
    cardBorder (signalCardColor (some "toString")) = none ∧
    cardText (signalCardColor (some "toString")) = none ∧
    cardBg (signalCardColor (some "toString")) = none := by
  decide

/-- C10 (amended): for every signal whose `signal_type` is absent or is
neither an own key of the colors object (BUY/SELL/HOLD) nor a member name
inherited from `Object.prototype`, the lookup falls back to the HOLD color
set and the card's border/text/background classes are all defined. -/
theorem c10_unknown_key_falls_back_to_hold (st : Option String)
    (h : ∀ s, st = some s →
      s ≠ "BUY" ∧ s ≠ "SELL" ∧ s ≠ "HOLD" ∧ s ∉ objectProtoKeys) :
    signalCardColor st = .colorSet holdColorSet ∧
    cardBorder (signalCardColor st) = some "border-yellow-500/50" ∧
    cardText (signalCardColor st) = some "text-yellow-400" ∧
    cardBg (signalCardColor st) = some "bg-yellow-500/10" := by
  have hcv : colorsIndex st = .jsUndefined := by
    cases st with
    | none => rfl
    | some s =>
      obtain ⟨h1, h2, h3, h4⟩ := h s rfl
      unfold colorsIndex signalColors
      simp [List.lookup, beq_eq_false_iff_ne.mpr h1, beq_eq_false_iff_ne.mpr h2,
        beq_eq_false_iff_ne.mpr h3, h4]
  unfold signalCardColor
  rw [hcv]
  exact ⟨rfl, rfl, rfl, rfl⟩

/-- C10 witness: the fallback at the unknown signal type `WAIT`. -/
theorem c10_unknown_key_falls_back_to_hold_witness :
    signalCardColor (some "WAIT") = .colorSet holdColorSet ∧
    cardBorder (signalCardColor (some "WAIT")) = some "border-yellow-500/50" ∧
    cardText (signalCardColor (some "WAIT")) = some "text-yellow-400" ∧
    cardBg (signalCardColor (some "WAIT")) = some "bg-yellow-500/10" :=
  c10_unknown_key_falls_back_to_hold (some "WAIT") (fun s hs => by
    injection hs with h
    subst h
    exact ⟨by decide, by decide, by decide, by decide⟩)

end AiSignalPro
